import Mathlib

/-!
Shallow embedding of the PubMed search / full-text resolution core of
`pubmed_notebook_lm.py` (class `PubMedSearcher`), together with proofs of
the specified properties.

External effects (NCBI Entrez calls, HTTP GET/HEAD probes) are modelled as
oracle functions returning `Except PyErr _`: an `.error` value stands for a
raised network or parse exception at that call site.  Python dictionaries
appearing in the data path are modelled as association lists so that the
presence or absence of a key is observable.
-/

/-- A raised Python exception, abstracted to its role in the control flow. -/
inductive PyErr where
  | keyErr
  | typeErr
  | netErr
deriving DecidableEq, Repr

/-- A Python value stored in an article dictionary: a string or an int
(`citation_count` is the only int-valued field). -/
inductive PyVal where
  | s (v : String)
  | i (n : Nat)
deriving DecidableEq, Repr

/-- A Python dict with string keys, as an association list. -/
abbrev PyDict := List (String × PyVal)

/- ===================== raw Entrez record model ===================== -/

/-- One entry of `AuthorList`: the `LastName` / `Initials` keys. -/
structure RawAuthor where
  lastName : Option String
  initials : Option String
deriving DecidableEq, Repr

/-- The `PubDate` sub-dictionary: optional `Year` and `MedlineDate` keys. -/
structure PubDateInfo where
  year : Option String
  medlineDate : Option String
deriving DecidableEq, Repr

/-- The `Journal` sub-dictionary: optional `Title` and `ISOAbbreviation`. -/
structure JournalInfo where
  title : Option String
  isoAbbreviation : Option String
deriving DecidableEq, Repr

/-- One `ELocationID` entry: its `EIdType` attribute and its string value. -/
structure ELocationId where
  eidType : Option String
  value : String
deriving DecidableEq, Repr

/-- One `ArticleIdList` entry of `PubmedData`: `IdType` attribute and value. -/
structure ArticleIdEntry where
  idType : Option String
  value : String
deriving DecidableEq, Repr

/-- The `Article` sub-dictionary of `MedlineCitation`.  `articleDate` holds,
for each `ArticleDate` entry, its optional `Year` key. -/
structure RawArticle where
  articleTitle : Option String
  abstractText : Option (List String)
  authorList : Option (List RawAuthor)
  articleDate : Option (List (Option String))
  pubDate : Option PubDateInfo
  journal : Option JournalInfo
  eLocationId : Option (List ELocationId)
deriving DecidableEq, Repr

/-- The `MedlineCitation` sub-dictionary: `PMID` and `Article` are accessed
with `[]` in the source, so their absence raises `KeyError`. -/
structure MedlineCit where
  pmid : Option String
  article : Option RawArticle
deriving DecidableEq, Repr

/-- One element of `records["PubmedArticle"]`. -/
structure RawRecord where
  medlineCitation : Option MedlineCit
  pubmedData : Option (List ArticleIdEntry)
deriving DecidableEq, Repr

/-- Result of `Entrez.esearch` + `Entrez.read`: the `IdList` and `Count`. -/
structure EsearchResult where
  idList : List String
  count : Nat
deriving DecidableEq, Repr

/- ===================== per-field extraction ===================== -/

/-- `" ".join(str(t) for t in abstract_text)` guarded by `"Abstract" in article`. -/
def extractAbstract (a : RawArticle) : String :=
  match a.abstractText with
  | none => ""
  | some frags => String.intercalate " " frags

/-- The author loop: `LastName` + `Initials`, skipping authors with no last
name; `f"{last_name} {initials}".strip()`. -/
def extractAuthors : List RawAuthor → List String
  | [] => []
  | a :: rest =>
    let lastName := a.lastName.getD ""
    let inits := a.initials.getD ""
    if lastName ≠ "" then (lastName ++ " " ++ inits).trim :: extractAuthors rest
    else extractAuthors rest

/-- `re.search(r'\d{4}', s)`: the leftmost window of four consecutive digit
characters, if any. -/
def find4 : List Char → Option (List Char)
  | c1 :: c2 :: c3 :: c4 :: rest =>
    if c1.isDigit && c2.isDigit && c3.isDigit && c4.isDigit then
      some [c1, c2, c3, c4]
    else find4 (c2 :: c3 :: c4 :: rest)
  | _ => none

/-- Publication-year extraction: `ArticleDate[0].get("Year","N/A")` when the
`ArticleDate` list is present and non-empty, else `PubDate["Year"]`, else the
first 4-digit number of `PubDate["MedlineDate"]`, else `"N/A"`. -/
def extractYear (a : RawArticle) : String :=
  match a.articleDate with
  | some (d :: _) => d.getD "N/A"
  | _ =>
    match a.pubDate with
    | none => "N/A"
    | some pd =>
      match pd.year with
      | some y => y
      | none =>
        match pd.medlineDate with
        | none => "N/A"
        | some md =>
          match find4 md.data with
          | some ys => String.mk ys
          | none => "N/A"

/-- Journal name: `Title`, else `ISOAbbreviation`, else `"N/A"`. -/
def extractJournal (a : RawArticle) : String :=
  match a.journal with
  | none => "N/A"
  | some j =>
    match j.title with
    | some t => t
    | none =>
      match j.isoAbbreviation with
      | some ab => ab
      | none => "N/A"

/-- The `ELocationID` loop: first entry whose `EIdType` is `"doi"` sets
`doi` and `doi_link` and breaks. -/
def extractDoiEloc : List ELocationId → String × String
  | [] => ("N/A", "N/A")
  | e :: rest =>
    if e.eidType = some "doi" then (e.value, "https://doi.org/" ++ e.value)
    else extractDoiEloc rest

/-- Article-level DOI search, guarded by `"ELocationID" in article`. -/
def extractDoiArticle (a : RawArticle) : String × String :=
  match a.eLocationId with
  | none => ("N/A", "N/A")
  | some l => extractDoiEloc l

/-- The `ArticleIdList` loop of `PubmedData`: a `"doi"`-typed id sets
`doi`/`doi_link` only while `doi == "N/A"`; a `"pmc"`-typed id always
overwrites `pmc_id`. -/
def extractIdsLoop : List ArticleIdEntry → String → String → String → String × String × String
  | [], doi, doiLink, pmcId => (doi, doiLink, pmcId)
  | aid :: rest, doi, doiLink, pmcId =>
    if aid.idType = some "doi" ∧ doi = "N/A" then
      extractIdsLoop rest aid.value ("https://doi.org/" ++ aid.value) pmcId
    else if aid.idType = some "pmc" then
      extractIdsLoop rest doi doiLink aid.value
    else extractIdsLoop rest doi doiLink pmcId

/-- Record-level id pass, guarded by `"PubmedData" in record`; `pmc_id`
starts at `"N/A"`. -/
def extractRecordIds (rec : RawRecord) (doi0 doiLink0 : String) : String × String × String :=
  match rec.pubmedData with
  | none => (doi0, doiLink0, "N/A")
  | some ids => extractIdsLoop ids doi0 doiLink0 "N/A"

/-- `get_pmc_pdf_link`: `"N/A"` for an empty or `"N/A"` PMC id, else the
direct PMC PDF URL. -/
def get_pmc_pdf_link (pmid pmcId : String) : String :=
  if pmcId = "" ∨ pmcId = "N/A" then "N/A"
  else "https://www.ncbi.nlm.nih.gov/pmc/articles/" ++ pmcId ++ "/pdf/"

/-- `get_citation_count`: the `elink` oracle returns the `LinkSetDb` lists of
each link set (each holding its `Link` id list); any raised exception is
absorbed into `none`; an empty structure yields `some 0`. -/
def get_citation_count (elink : String → Except PyErr (List (List (List String))))
    (pmid : String) : Option Nat :=
  match elink pmid with
  | .error _ => none
  | .ok result =>
    match result with
    | [] => some 0
    | linkSetDb :: _ =>
      match linkSetDb with
      | [] => some 0
      | links :: _ => some links.length

/-- `abstract[:500] + "..." if len(abstract) > 500 else abstract`. -/
def truncateAbstract (s : String) : String :=
  if s.length > 500 then String.mk (s.data.take 500) ++ "..." else s

/-- The article dictionary literal appended to `articles` for one
successfully parsed record. -/
def buildArticle (elink : String → Except PyErr (List (List (List String))))
    (rec : RawRecord) (article : RawArticle) (pmid : String) : PyDict :=
  let authors := match article.authorList with
    | none => []
    | some l => extractAuthors l
  let doiPair := extractDoiArticle article
  let idsTriple := extractRecordIds rec doiPair.1 doiPair.2
  let pmcId := idsTriple.2.2
  let citationCount := get_citation_count elink pmid
  [("pmid", .s pmid),
   ("pmc_id", .s (if pmcId ≠ "N/A" then pmcId else "N/A")),
   ("title", .s (article.articleTitle.getD "N/A")),
   ("abstract", .s (truncateAbstract (extractAbstract article))),
   ("authors", .s (String.intercalate ", " (authors.take 3))),
   ("year", .s (extractYear article)),
   ("journal", .s (extractJournal article)),
   ("doi", .s idsTriple.1),
   ("doi_link", .s idsTriple.2.1),
   ("pdf_link", .s (get_pmc_pdf_link pmid pmcId)),
   ("url", .s ("https://pubmed.ncbi.nlm.nih.gov/" ++ pmid ++ "/")),
   ("citation_count", match citationCount with | some n => .i n | none => .s "N/A")]

/-- The `try:` body of the per-record loop: the `[]` accesses on
`MedlineCitation`, `Article` and `PMID` are the fallible steps; everything
after uses `.get`-style defaults and cannot raise. -/
def parseRecord (elink : String → Except PyErr (List (List (List String))))
    (rec : RawRecord) : Except PyErr PyDict :=
  match rec.medlineCitation with
  | none => .error .keyErr
  | some medline =>
    match medline.article with
    | none => .error .keyErr
    | some article =>
      match medline.pmid with
      | none => .error .keyErr
      | some pmid => .ok (buildArticle elink rec article pmid)

/-- The record loop: a parse failure logs and `continue`s, so a failing
record is skipped and the rest of the batch is kept. -/
def parseAll (elink : String → Except PyErr (List (List (List String)))) :
    List RawRecord → List PyDict
  | [] => []
  | r :: rs =>
    match parseRecord elink r with
    | .ok art => art :: parseAll elink rs
    | .error _ => parseAll elink rs

/-- The date filter appended to the query. -/
def dateFilter (dateFrom dateTo : Option String) : String :=
  match dateFrom, dateTo with
  | some f, some t => " AND (" ++ f ++ ":" ++ t ++ "[PDAT])"
  | some f, none => " AND (" ++ f ++ "[PDAT] : 3000[PDAT])"
  | none, some t => " AND (0001[PDAT] : " ++ t ++ "[PDAT])"
  | none, none => ""

/-- `full_query = query + date_filter`. -/
def buildFullQuery (query : String) (dateFrom dateTo : Option String) : String :=
  query ++ dateFilter dateFrom dateTo

/-- The external services used by `search`: keyword search, bulk fetch (its
argument is the comma-joined id list, as in the source), and the cited-in
link query used for citation counts. -/
structure SearchEnv where
  esearch : String → Nat → Except PyErr EsearchResult
  efetch : String → Except PyErr (List RawRecord)
  elink : String → Except PyErr (List (List (List String)))

/-- `PubMedSearcher.search`: esearch, early return on an empty `IdList`,
bulk efetch, then the per-record parse loop.  The outer `except` clause
logs and re-raises, so failures of the search or fetch calls propagate. -/
def search (env : SearchEnv) (query : String) (maxResults : Nat)
    (dateFrom dateTo : Option String) : Except PyErr (List PyDict) :=
  match env.esearch (buildFullQuery query dateFrom dateTo) maxResults with
  | .error e => .error e
  | .ok sr =>
    if sr.idList.isEmpty then .ok []
    else
      match env.efetch (String.intercalate "," sr.idList) with
      | .error e => .error e
      | .ok records => .ok (parseAll env.elink records)

/- ===================== full-text resolution waterfall ===================== -/

/-- Hex digit used by `urllib.parse.quote` percent-encoding (uppercase). -/
def hexDigitChar (n : Nat) : Char :=
  if n < 10 then Char.ofNat (48 + n) else Char.ofNat (55 + n)

/-- UTF-8 bytes of one character, as used by `urllib.parse.quote`. -/
def utf8Bytes (c : Char) : List Nat :=
  let n := c.toNat
  if n < 128 then [n]
  else if n < 2048 then [192 + n / 64, 128 + n % 64]
  else if n < 65536 then [224 + n / 4096, 128 + (n / 64) % 64, 128 + n % 64]
  else [240 + n / 262144, 128 + (n / 4096) % 64, 128 + (n / 64) % 64, 128 + n % 64]

/-- `urllib.parse.quote` with the default safe set (`'/'` plus ASCII
alphanumerics and `_.-~`). -/
def pyQuote (s : String) : String :=
  String.mk (s.data.flatMap (fun c =>
    if c.isAlphanum ∨ c ∈ ['_', '.', '-', '~', '/'] then [c]
    else (utf8Bytes c).flatMap (fun b => ['%', hexDigitChar (b / 16), hexDigitChar (b % 16)])))

/-- Python substring test `needle in hay`. -/
def containsSub (needle : List Char) : List Char → Bool
  | [] => needle.isEmpty
  | c :: rest => needle.isPrefixOf (c :: rest) || containsSub needle rest

/-- Lazy capture of `(.*?)<`: the characters up to the first `<`, failing if
a newline (which `.` does not match) comes first. -/
def captureToLt : List Char → Option (List Char)
  | [] => none
  | c :: rest =>
    if c = '<' then some []
    else if c = '\n' then none
    else (captureToLt rest).map (c :: ·)

/-- `re.search(r'pdf>(.*?)<', text)`: leftmost position where `pdf>` is
followed, on the same line, by a `<`; returns the captured group. -/
def arxivPdfSearch : List Char → Option (List Char)
  | [] => none
  | c :: rest =>
    if ("pdf>".data).isPrefixOf (c :: rest) then
      match captureToLt ((c :: rest).drop 4) with
      | some cap => some cap
      | none => arxivPdfSearch rest
    else arxivPdfSearch rest

/-- `title.split(':')[0][:100]` — the text before the first colon, capped at
100 characters; raises `AttributeError` on a non-string title hint, which
the enclosing stage absorbs. -/
def searchKey : PyVal → Except PyErr String
  | .s t => .ok (String.mk ((t.data.takeWhile (fun c => c ≠ ':')).take 100))
  | _ => .error .typeErr

/-- A bioRxiv/medRxiv API response: HTTP status and, when the parsed JSON
body has a `collection` key, the `pdf` field of each collection entry
(`preprint.get('pdf','')`). -/
structure PrepResp where
  status : Nat
  collection : Option (List String)
deriving DecidableEq, Repr

/-- The external call sites of the resolution waterfall, one oracle per
call site; `.error` stands for a raised exception at that site. -/
structure ResolveEnv where
  pmcSearch : String → Except PyErr (List String)
  pmcHead : String → Except PyErr Nat
  prepGet : String → Except PyErr PrepResp
  arxGet : String → Except PyErr (Nat × String)
  rgHead : String → Except PyErr Nat

/-- `_try_pmc`: esearch against the PMC database, build the PDF URL from
the first id, verify with a HEAD probe (its own exceptions passed over);
all other exceptions absorbed into `none`. -/
def try_pmc (pmcSearch : String → Except PyErr (List String))
    (pmcHead : String → Except PyErr Nat) (pmid : String) : Option String :=
  match pmcSearch pmid with
  | .error _ => none
  | .ok pmcIds =>
    match pmcIds with
    | [] => none
    | pmcId :: _ =>
      let pdfUrl := "https://www.ncbi.nlm.nih.gov/pmc/articles/PMC" ++ pmcId ++ "/pdf/"
      match pmcHead pdfUrl with
      | .ok 200 => some pdfUrl
      | _ => none

/-- The per-server body of the `_try_preprints` loop: GET the details URL;
on status 200 with a non-empty `collection`, take the first entry's `pdf`
field, prefixing the host when it is relative; return it when non-empty.
Exceptions of this server are passed over. -/
def tryPreprintServer (prepGet : String → Except PyErr PrepResp)
    (key server : String) : Option String :=
  match prepGet ("https://api.biorxiv.org/details/" ++ server ++ "/" ++ key) with
  | .error _ => none
  | .ok resp =>
    if resp.status = 200 then
      match resp.collection with
      | some (pdf :: _) =>
        let pdfUrl := if pdf ≠ "" ∧ ¬ ("http".data.isPrefixOf pdf.data) then
            "https://biorxiv.org" ++ pdf
          else pdf
        if pdfUrl ≠ "" then some pdfUrl else none
      | _ => none
    else none

/-- `_try_preprints`: derive the search key from the title hint, then try
`biorxiv` and `medrxiv` in order; any exception absorbed into `none`. -/
def try_preprints (prepGet : String → Except PyErr PrepResp)
    (pmid : String) (title : PyVal) : Option String :=
  match searchKey title with
  | .error _ => none
  | .ok key =>
    match tryPreprintServer prepGet key "biorxiv" with
    | some u => some u
    | none => tryPreprintServer prepGet key "medrxiv"

/-- `_try_arxiv`: GET the arXiv API query; on status 200 with `<entry>` in
the body, extract the id from the first `pdf>(.*?)<` match and build the
PDF URL; any exception absorbed into `none`. -/
def try_arxiv (arxGet : String → Except PyErr (Nat × String))
    (title : PyVal) : Option String :=
  match searchKey title with
  | .error _ => none
  | .ok key =>
    match arxGet ("http://export.arxiv.org/api/query?search_query=all:" ++ pyQuote key
        ++ "&start=0&max_results=1") with
    | .error _ => none
    | .ok (status, text) =>
      if status = 200 ∧ containsSub ("<entry>".data) text.data then
        match arxivPdfSearch text.data with
        | some cap =>
          some ("https://arxiv.org/pdf/"
            ++ ((String.mk cap).splitOn "/").getLastD "" ++ ".pdf")
        | none => none
      else none

/-- `_try_researchgate`: build the search URL from the title hint, probe it
with HEAD, return it on status 200; the `authors` argument is accepted but
never used, exactly as in the source. -/
def try_researchgate (rgHead : String → Except PyErr Nat)
    (title authors : PyVal) : Option String :=
  match searchKey title with
  | .error _ => none
  | .ok key =>
    let rgSearch := "https://www.researchgate.net/search?q=" ++ pyQuote key
    match rgHead rgSearch with
    | .ok 200 => some rgSearch
    | _ => none

/-- The `result` dictionary of `get_full_text_url`, with its three keys. -/
def mkResolution (u src access : Option String) : List (String × Option String) :=
  [("url", u), ("source", src), ("access_type", access)]

/-- Python truthiness of an `Optional[str]`: not `None` and non-empty. -/
def pyTruthyOpt : Option String → Bool
  | none => false
  | some s => s ≠ ""

/-- Python truthiness of the `article` hint (`Optional[Dict]`): not `None`
and a non-empty dict. -/
def hintTruthy : Option PyDict → Bool
  | none => false
  | some d => !d.isEmpty

/-- `article.get(key, '')` (only evaluated under the truthiness guard). -/
def hintGet (hint : Option PyDict) (key : String) : PyVal :=
  match hint with
  | none => .s ""
  | some d => (d.lookup key).getD (.s "")

/-- `PubMedSearcher.get_full_text_url` (the second, effective definition):
the four-stage waterfall over PMC, bioRxiv/medRxiv, arXiv and ResearchGate,
each hint-dependent stage guarded by `if article:`; the result dict is
returned all-`None` when every stage comes up empty, and the outer
`except` returns the same dict on any escaped exception. -/
def get_full_text_url (env : ResolveEnv) (pmid : String)
    (article : Option PyDict) : List (String × Option String) :=
  let pmcUrl := try_pmc env.pmcSearch env.pmcHead pmid
  if pyTruthyOpt pmcUrl then
    mkResolution pmcUrl (some "PubMed Central") (some "open-access")
  else
    let preprintUrl := if hintTruthy article then
        try_preprints env.prepGet pmid (hintGet article "title")
      else none
    if pyTruthyOpt preprintUrl then
      mkResolution preprintUrl (some "bioRxiv/medRxiv") (some "open-access")
    else
      let arxivUrl := if hintTruthy article then
          try_arxiv env.arxGet (hintGet article "title")
        else none
      if pyTruthyOpt arxivUrl then
        mkResolution arxivUrl (some "arXiv") (some "open-access")
      else
        let rgUrl := if hintTruthy article then
            try_researchgate env.rgHead (hintGet article "title") (hintGet article "authors")
          else none
        if pyTruthyOpt rgUrl then
          mkResolution rgUrl (some "ResearchGate") (some "possibly-paywalled")
        else mkResolution none none none

/-- All five oracles of a `ResolveEnv` raise on every input. -/
def ResolveEnv.AllFail (env : ResolveEnv) : Prop :=
  (∀ x, ∃ e, env.pmcSearch x = .error e) ∧
  (∀ x, ∃ e, env.pmcHead x = .error e) ∧
  (∀ x, ∃ e, env.prepGet x = .error e) ∧
  (∀ x, ∃ e, env.arxGet x = .error e) ∧
  (∀ x, ∃ e, env.rgHead x = .error e)

/- ===================== concrete fixtures ===================== -/

/-- An `elink` oracle whose every call raises. -/
def elErr : String → Except PyErr (List (List (List String))) := fun _ => .error .netErr

/-- An `Article` sub-dictionary with every optional key absent. -/
def artEmpty : RawArticle := ⟨none, none, none, none, none, none, none⟩

/-- A record that parses: `PMID "123"`, empty article, no `PubmedData`. -/
def recGood : RawRecord := ⟨some ⟨some "123", some artEmpty⟩, none⟩

/-- A record missing `MedlineCitation`: its parse raises `KeyError`. -/
def recBad : RawRecord := ⟨none, none⟩

/-- A record whose `PMID` value is the empty string and which has no DOI. -/
def recEmptyPmid : RawRecord := ⟨some ⟨some "", some artEmpty⟩, none⟩

/-- An article whose only date field is `MedlineDate = "2023 Jan-Feb"`. -/
def artMedline : RawArticle := { artEmpty with pubDate := some ⟨none, some "2023 Jan-Feb"⟩ }

/-- Record around `artMedline`. -/
def recMedline : RawRecord := ⟨some ⟨some "123", some artMedline⟩, none⟩

/-- An article whose `MedlineDate` is `"n.d."` (no 4-digit number). -/
def artND : RawArticle := { artEmpty with pubDate := some ⟨none, some "n.d."⟩ }

/-- Record around `artND`. -/
def recND : RawRecord := ⟨some ⟨some "123", some artND⟩, none⟩

/-- An article with a `pii` entry followed by a `doi` entry in
`ELocationID`. -/
def artDoiBoth : RawArticle :=
  { artEmpty with eLocationId := some [⟨some "pii", "S123"⟩, ⟨some "doi", "10.1000/articledoi"⟩] }

/-- Record with a different DOI at the record level as well. -/
def recDoiBoth : RawRecord :=
  ⟨some ⟨some "123", some artDoiBoth⟩,
   some [⟨some "doi", "10.1000/recorddoi"⟩, ⟨some "pmc", "PMC42"⟩]⟩

/-- An article with a 501-character abstract fragment. -/
def artLong : RawArticle :=
  { artEmpty with abstractText := some [String.mk (List.replicate 501 'a')] }

/-- Record around `artLong`. -/
def recLong : RawRecord := ⟨some ⟨some "123", some artLong⟩, none⟩

/-- A search environment whose keyword search finds zero identifiers and
whose fetch call would raise if it were ever made. -/
def envEmptySearch : SearchEnv := ⟨fun _ _ => .ok ⟨[], 0⟩, fun _ => .error .netErr, elErr⟩

/-- A search environment returning one unparseable and one good record. -/
def envBatch : SearchEnv :=
  ⟨fun _ _ => .ok ⟨["1", "2"], 2⟩, fun _ => .ok [recBad, recGood], elErr⟩

/-- A resolution environment whose every oracle raises. -/
def envErrR : ResolveEnv :=
  ⟨fun _ => .error .netErr, fun _ => .error .netErr, fun _ => .error .netErr,
   fun _ => .error .netErr, fun _ => .error .netErr⟩

/-- A resolution environment where both the repository stage and the
preprint stage would succeed. -/
def envPmcOk : ResolveEnv :=
  ⟨fun _ => .ok ["777"], fun _ => .ok 200, fun _ => .ok ⟨200, some ["/content/x.pdf"]⟩,
   fun _ => .error .netErr, fun _ => .error .netErr⟩

/-- A resolution environment with an empty repository index but a preprint
service that answers every details query with a hit. -/
def envC9 : ResolveEnv :=
  ⟨fun _ => .ok [], fun _ => .ok 200, fun _ => .ok ⟨200, some ["/content/x.pdf"]⟩,
   fun _ => .error .netErr, fun _ => .error .netErr⟩

/-- A hint dict carrying only authors, no title key. -/
def hintAuthorsOnly : PyDict := [("authors", PyVal.s "Smith J")]

/-- A malformed hint dict: the title maps to an int. -/
def hintMalformed : PyDict := [("title", PyVal.i 5)]

/- ===================== helper lemmas ===================== -/

theorem mkResolution_keys (u s a : Option String) :
    (mkResolution u s a).map Prod.fst = ["url", "source", "access_type"] := rfl

theorem pyTruthyOpt_true_iff (o : Option String) :
    pyTruthyOpt o = true ↔ ∃ s, o = some s ∧ s ≠ "" := by
  cases o <;> simp [pyTruthyOpt]

theorem str_length_append (a b : String) : (a ++ b).length = a.length + b.length := by
  show (a.data ++ b.data).length = a.data.length + b.data.length
  exact List.length_append a.data b.data

theorem append3_ne_empty (a m b : String) (h : a.length ≠ 0) : a ++ m ++ b ≠ "" := by
  intro hc
  have h1 : (a ++ m ++ b).length = 0 := by rw [hc]; rfl
  rw [str_length_append, str_length_append] at h1
  omega

theorem parseRecord_ok {el : String → Except PyErr (List (List (List String)))}
    {rec : RawRecord} {art : PyDict} (h : parseRecord el rec = .ok art) :
    ∃ m a p, rec.medlineCitation = some m ∧ m.article = some a ∧ m.pmid = some p ∧
      art = buildArticle el rec a p := by
  unfold parseRecord at h
  split at h
  next => simp at h
  next m hm =>
    split at h
    next => simp at h
    next a hma =>
      split at h
      next => simp at h
      next p hmp =>
        simp only [Except.ok.injEq] at h
        exact ⟨m, a, p, hm, hma, hmp, h.symm⟩

theorem buildArticle_keys (el : String → Except PyErr (List (List (List String))))
    (rec : RawRecord) (a : RawArticle) (p : String) :
    (buildArticle el rec a p).map Prod.fst =
      ["pmid", "pmc_id", "title", "abstract", "authors", "year", "journal",
       "doi", "doi_link", "pdf_link", "url", "citation_count"] := rfl

theorem buildArticle_lookup_pmid (el : String → Except PyErr (List (List (List String))))
    (rec : RawRecord) (a : RawArticle) (p : String) :
    (buildArticle el rec a p).lookup "pmid" = some (.s p) := rfl

theorem buildArticle_lookup_title (el : String → Except PyErr (List (List (List String))))
    (rec : RawRecord) (a : RawArticle) (p : String) :
    (buildArticle el rec a p).lookup "title" = some (.s (a.articleTitle.getD "N/A")) := rfl

theorem buildArticle_lookup_abstract (el : String → Except PyErr (List (List (List String))))
    (rec : RawRecord) (a : RawArticle) (p : String) :
    (buildArticle el rec a p).lookup "abstract" =
      some (.s (truncateAbstract (extractAbstract a))) := rfl

theorem buildArticle_lookup_year (el : String → Except PyErr (List (List (List String))))
    (rec : RawRecord) (a : RawArticle) (p : String) :
    (buildArticle el rec a p).lookup "year" = some (.s (extractYear a)) := rfl

theorem buildArticle_lookup_journal (el : String → Except PyErr (List (List (List String))))
    (rec : RawRecord) (a : RawArticle) (p : String) :
    (buildArticle el rec a p).lookup "journal" = some (.s (extractJournal a)) := rfl

theorem buildArticle_lookup_doi (el : String → Except PyErr (List (List (List String))))
    (rec : RawRecord) (a : RawArticle) (p : String) :
    (buildArticle el rec a p).lookup "doi" =
      some (.s (extractRecordIds rec (extractDoiArticle a).1 (extractDoiArticle a).2).1) := rfl

theorem buildArticle_lookup_doi_link (el : String → Except PyErr (List (List (List String))))
    (rec : RawRecord) (a : RawArticle) (p : String) :
    (buildArticle el rec a p).lookup "doi_link" =
      some (.s (extractRecordIds rec (extractDoiArticle a).1 (extractDoiArticle a).2).2.1) := rfl

theorem buildArticle_lookup_pmc_id (el : String → Except PyErr (List (List (List String))))
    (rec : RawRecord) (a : RawArticle) (p : String) :
    (buildArticle el rec a p).lookup "pmc_id" =
      some (.s (let pmcId := (extractRecordIds rec (extractDoiArticle a).1 (extractDoiArticle a).2).2.2
        if pmcId ≠ "N/A" then pmcId else "N/A")) := rfl

theorem buildArticle_lookup_pdf_link (el : String → Except PyErr (List (List (List String))))
    (rec : RawRecord) (a : RawArticle) (p : String) :
    (buildArticle el rec a p).lookup "pdf_link" =
      some (.s (get_pmc_pdf_link p
        (extractRecordIds rec (extractDoiArticle a).1 (extractDoiArticle a).2).2.2)) := rfl

theorem buildArticle_lookup_citation (el : String → Except PyErr (List (List (List String))))
    (rec : RawRecord) (a : RawArticle) (p : String) :
    (buildArticle el rec a p).lookup "citation_count" =
      some (match get_citation_count el p with | some n => .i n | none => .s "N/A") := rfl

theorem parseAll_eq_filterMap (el : String → Except PyErr (List (List (List String))))
    (records : List RawRecord) :
    parseAll el records = records.filterMap (fun r => (parseRecord el r).toOption) := by
  induction records with
  | nil => rfl
  | cons r rs ih =>
    unfold parseAll
    cases h : parseRecord el r with
    | ok art => simp [List.filterMap_cons, h, Except.toOption, ih]
    | error e => simp [List.filterMap_cons, h, Except.toOption, ih]

theorem extractDoiEloc_first (pre : List ELocationId) (e : ELocationId)
    (post : List ELocationId) (hpre : ∀ x ∈ pre, x.eidType ≠ some "doi")
    (he : e.eidType = some "doi") :
    extractDoiEloc (pre ++ e :: post) = (e.value, "https://doi.org/" ++ e.value) := by
  induction pre with
  | nil => simp [extractDoiEloc, he]
  | cons x xs ih =>
    have hx : x.eidType ≠ some "doi" := hpre x (by simp)
    simp only [List.cons_append, extractDoiEloc]
    rw [if_neg hx]
    exact ih (fun y hy => hpre y (by simp [hy]))

theorem extractDoiEloc_none (l : List ELocationId)
    (h : ∀ x ∈ l, x.eidType ≠ some "doi") : extractDoiEloc l = ("N/A", "N/A") := by
  induction l with
  | nil => rfl
  | cons x xs ih =>
    simp only [extractDoiEloc]
    rw [if_neg (h x (by simp))]
    exact ih (fun y hy => h y (by simp [hy]))

theorem extractIdsLoop_stable (ids : List ArticleIdEntry) (doi link pmc : String)
    (h : doi ≠ "N/A") :
    (extractIdsLoop ids doi link pmc).1 = doi ∧
    (extractIdsLoop ids doi link pmc).2.1 = link := by
  induction ids generalizing pmc with
  | nil => exact ⟨rfl, rfl⟩
  | cons aid rest ih =>
    simp only [extractIdsLoop]
    rw [if_neg (by rintro ⟨_, hd⟩; exact h hd)]
    split
    · exact ih _
    · exact ih _

theorem extractIdsLoop_no_doi (ids : List ArticleIdEntry) (doi link pmc : String)
    (h : ∀ x ∈ ids, x.idType ≠ some "doi") :
    (extractIdsLoop ids doi link pmc).1 = doi ∧
    (extractIdsLoop ids doi link pmc).2.1 = link := by
  induction ids generalizing pmc with
  | nil => exact ⟨rfl, rfl⟩
  | cons aid rest ih =>
    simp only [extractIdsLoop]
    rw [if_neg (by rintro ⟨h1, _⟩; exact h aid (by simp) h1)]
    split
    · exact ih _ (fun y hy => h y (by simp [hy]))
    · exact ih _ (fun y hy => h y (by simp [hy]))

theorem extractIdsLoop_no_pmc (ids : List ArticleIdEntry) (doi link pmc : String)
    (h : ∀ x ∈ ids, x.idType ≠ some "pmc") :
    (extractIdsLoop ids doi link pmc).2.2 = pmc := by
  induction ids generalizing doi link with
  | nil => rfl
  | cons aid rest ih =>
    simp only [extractIdsLoop]
    split
    · exact ih _ _ (fun y hy => h y (by simp [hy]))
    · rw [if_neg (h aid (by simp))]
      exact ih _ _ (fun y hy => h y (by simp [hy]))

theorem extractIdsLoop_first_doi (pre : List ArticleIdEntry) (i : ArticleIdEntry)
    (post : List ArticleIdEntry) (link pmc : String)
    (hpre : ∀ x ∈ pre, x.idType ≠ some "doi") (hi : i.idType = some "doi")
    (hv : i.value ≠ "N/A") :
    (extractIdsLoop (pre ++ i :: post) "N/A" link pmc).1 = i.value ∧
    (extractIdsLoop (pre ++ i :: post) "N/A" link pmc).2.1 =
      "https://doi.org/" ++ i.value := by
  induction pre generalizing link pmc with
  | nil =>
    simp only [List.nil_append, extractIdsLoop]
    rw [if_pos ⟨hi, trivial⟩]
    exact extractIdsLoop_stable post i.value _ _ hv
  | cons x xs ih =>
    have hx : x.idType ≠ some "doi" := hpre x (by simp)
    simp only [List.cons_append, extractIdsLoop]
    rw [if_neg (by rintro ⟨h1, _⟩; exact hx h1)]
    split
    · exact ih _ _ (fun y hy => hpre y (by simp [hy]))
    · exact ih _ _ (fun y hy => hpre y (by simp [hy]))

theorem find4_some : ∀ (l ys : List Char), find4 l = some ys →
    ys.length = 4 ∧ (∀ c ∈ ys, c.isDigit = true) ∧
    ∃ pre post, l = pre ++ ys ++ post ∧
      ∀ pre2 ys2 post2, l = pre2 ++ ys2 ++ post2 → ys2.length = 4 →
        (∀ c ∈ ys2, c.isDigit = true) → pre.length ≤ pre2.length := by
  intro l
  induction l with
  | nil => intro ys h; simp [find4] at h
  | cons c1 t ih =>
    intro ys h
    cases t with
    | nil => simp [find4] at h
    | cons c2 t2 =>
      cases t2 with
      | nil => simp [find4] at h
      | cons c3 t3 =>
        cases t3 with
        | nil => simp [find4] at h
        | cons c4 rest =>
          rw [find4] at h
          by_cases hd : (c1.isDigit && c2.isDigit && c3.isDigit && c4.isDigit) = true
          · rw [if_pos hd] at h
            simp only [Option.some.injEq] at h
            subst h
            simp only [Bool.and_eq_true] at hd
            refine ⟨rfl, ?_, [], rest, by simp, ?_⟩
            · intro c hc
              simp only [List.mem_cons, List.not_mem_nil, or_false] at hc
              rcases hc with rfl | rfl | rfl | rfl
              · exact hd.1.1.1
              · exact hd.1.1.2
              · exact hd.1.2
              · exact hd.2
            · intro pre2 ys2 post2 _ _ _
              exact Nat.zero_le _
          · rw [if_neg hd] at h
            obtain ⟨hlen, hdig, pre1, post1, heq, hleft⟩ := ih ys h
            refine ⟨hlen, hdig, c1 :: pre1, post1, by simp [heq], ?_⟩
            intro pre2 ys2 post2 hsplit hlen2 hdig2
            cases pre2 with
            | nil =>
              exfalso
              simp only [List.nil_append] at hsplit
              have h4 : List.take 4 (ys2 ++ post2) = ys2 := List.take_left' hlen2
              rw [← hsplit] at h4
              have hys2 : ys2 = [c1, c2, c3, c4] := by
                rw [← h4]; rfl
              apply hd
              simp only [Bool.and_eq_true]
              exact ⟨⟨⟨hdig2 c1 (by rw [hys2]; simp), hdig2 c2 (by rw [hys2]; simp)⟩,
                hdig2 c3 (by rw [hys2]; simp)⟩, hdig2 c4 (by rw [hys2]; simp)⟩
            | cons p ptail =>
              simp only [List.cons_append, List.cons.injEq] at hsplit
              have := hleft ptail ys2 post2 hsplit.2 hlen2 hdig2
              simpa using Nat.succ_le_succ this

theorem append2_ne_empty (a b : String) (h : a.length ≠ 0) : a ++ b ≠ "" := by
  intro hc
  have h1 : (a ++ b).length = 0 := by rw [hc]; rfl
  rw [str_length_append] at h1
  omega

theorem probe_match_some {ph : String → Except PyErr Nat} {w u : String}
    (h : (match ph w with | .ok 200 => some w | _ => none) = some u) : u = w := by
  split at h
  · exact (Option.some.inj h).symm
  · simp at h

theorem guard_some_ne {w u : String}
    (h : (if w ≠ "" then some w else none) = some u) : u ≠ "" := by
  split at h
  next hw =>
    simp only [Option.some.injEq] at h
    subst h
    exact hw
  next => simp at h

theorem try_pmc_some_ne {ps : String → Except PyErr (List String)}
    {ph : String → Except PyErr Nat} {pmid u : String}
    (h : try_pmc ps ph pmid = some u) : u ≠ "" := by
  unfold try_pmc at h
  split at h
  · simp at h
  · split at h
    · simp at h
    · have hw := probe_match_some h
      subst hw
      exact append3_ne_empty _ _ _ (by decide)

theorem tryPreprintServer_some_ne {pg : String → Except PyErr PrepResp}
    {key server u : String} (h : tryPreprintServer pg key server = some u) : u ≠ "" := by
  unfold tryPreprintServer at h
  split at h
  · simp at h
  · split at h
    · split at h
      · exact guard_some_ne h
      · simp at h
    · simp at h

theorem try_preprints_some_ne {pg : String → Except PyErr PrepResp}
    {pmid : String} {title : PyVal} {u : String}
    (h : try_preprints pg pmid title = some u) : u ≠ "" := by
  unfold try_preprints at h
  split at h
  · simp at h
  · split at h
    next v hv =>
      simp only [Option.some.injEq] at h
      subst h
      exact tryPreprintServer_some_ne hv
    next => exact tryPreprintServer_some_ne h

theorem try_arxiv_some_ne {ag : String → Except PyErr (Nat × String)}
    {title : PyVal} {u : String} (h : try_arxiv ag title = some u) : u ≠ "" := by
  unfold try_arxiv at h
  split at h
  · simp at h
  · split at h
    · simp at h
    · split at h
      · split at h
        · simp only [Option.some.injEq] at h
          subst h
          exact append3_ne_empty _ _ _ (by decide)
        · simp at h
      · simp at h

theorem try_researchgate_some_ne {rh : String → Except PyErr Nat}
    {title authors : PyVal} {u : String}
    (h : try_researchgate rh title authors = some u) : u ≠ "" := by
  unfold try_researchgate at h
  split at h
  · simp at h
  · have hw := probe_match_some h
    subst hw
    exact append2_ne_empty _ _ (by decide)

theorem try_pmc_none_of_error {ps : String → Except PyErr (List String)}
    {ph : String → Except PyErr Nat} {pmid : String}
    (h : ∀ x, ∃ e, ps x = .error e) : try_pmc ps ph pmid = none := by
  obtain ⟨e, he⟩ := h pmid
  unfold try_pmc
  rw [he]

theorem tryPreprintServer_none_of_error {pg : String → Except PyErr PrepResp}
    {key server : String} (h : ∀ x, ∃ e, pg x = .error e) :
    tryPreprintServer pg key server = none := by
  obtain ⟨e, he⟩ := h ("https://api.biorxiv.org/details/" ++ server ++ "/" ++ key)
  unfold tryPreprintServer
  rw [he]

theorem try_preprints_none_of_error {pg : String → Except PyErr PrepResp}
    {pmid : String} {title : PyVal} (h : ∀ x, ∃ e, pg x = .error e) :
    try_preprints pg pmid title = none := by
  unfold try_preprints
  split
  · rfl
  · rw [tryPreprintServer_none_of_error h, tryPreprintServer_none_of_error h]

theorem try_arxiv_none_of_error {ag : String → Except PyErr (Nat × String)}
    {title : PyVal} (h : ∀ x, ∃ e, ag x = .error e) : try_arxiv ag title = none := by
  unfold try_arxiv
  split
  · rfl
  next key _ =>
    obtain ⟨e, he⟩ := h ("http://export.arxiv.org/api/query?search_query=all:" ++ pyQuote key
      ++ "&start=0&max_results=1")
    rw [he]

theorem try_researchgate_none_of_error {rh : String → Except PyErr Nat}
    {title authors : PyVal} (h : ∀ x, ∃ e, rh x = .error e) :
    try_researchgate rh title authors = none := by
  unfold try_researchgate
  split
  · rfl
  next key _ =>
    obtain ⟨e, he⟩ := h ("https://www.researchgate.net/search?q=" ++ pyQuote key)
    show (match rh ("https://www.researchgate.net/search?q=" ++ pyQuote key) with
      | Except.ok 200 => some ("https://www.researchgate.net/search?q=" ++ pyQuote key)
      | _ => none) = none
    rw [he]

theorem resolve_pmc_some (env : ResolveEnv) (pmid : String) (hint : Option PyDict)
    (u : String) (h : try_pmc env.pmcSearch env.pmcHead pmid = some u) :
    get_full_text_url env pmid hint =
      mkResolution (some u) (some "PubMed Central") (some "open-access") := by
  have hne := try_pmc_some_ne h
  simp [get_full_text_url, h, pyTruthyOpt, hne]

theorem resolve_prep_some (env : ResolveEnv) (pmid : String) (hint : Option PyDict)
    (v : String) (h1 : try_pmc env.pmcSearch env.pmcHead pmid = none)
    (ht : hintTruthy hint = true)
    (h2 : try_preprints env.prepGet pmid (hintGet hint "title") = some v) :
    get_full_text_url env pmid hint =
      mkResolution (some v) (some "bioRxiv/medRxiv") (some "open-access") := by
  have hne := try_preprints_some_ne h2
  simp [get_full_text_url, h1, ht, h2, pyTruthyOpt, hne]

theorem resolve_arxiv_some (env : ResolveEnv) (pmid : String) (hint : Option PyDict)
    (w : String) (h1 : try_pmc env.pmcSearch env.pmcHead pmid = none)
    (ht : hintTruthy hint = true)
    (h2 : try_preprints env.prepGet pmid (hintGet hint "title") = none)
    (h3 : try_arxiv env.arxGet (hintGet hint "title") = some w) :
    get_full_text_url env pmid hint =
      mkResolution (some w) (some "arXiv") (some "open-access") := by
  have hne := try_arxiv_some_ne h3
  simp [get_full_text_url, h1, ht, h2, h3, pyTruthyOpt, hne]

theorem resolve_rg_some (env : ResolveEnv) (pmid : String) (hint : Option PyDict)
    (x : String) (h1 : try_pmc env.pmcSearch env.pmcHead pmid = none)
    (ht : hintTruthy hint = true)
    (h2 : try_preprints env.prepGet pmid (hintGet hint "title") = none)
    (h3 : try_arxiv env.arxGet (hintGet hint "title") = none)
    (h4 : try_researchgate env.rgHead (hintGet hint "title") (hintGet hint "authors") = some x) :
    get_full_text_url env pmid hint =
      mkResolution (some x) (some "ResearchGate") (some "possibly-paywalled") := by
  have hne := try_researchgate_some_ne h4
  simp [get_full_text_url, h1, ht, h2, h3, h4, pyTruthyOpt, hne]

theorem resolve_nohint (env : ResolveEnv) (pmid : String) (hint : Option PyDict)
    (ht : hintTruthy hint = false)
    (h1 : try_pmc env.pmcSearch env.pmcHead pmid = none) :
    get_full_text_url env pmid hint = mkResolution none none none := by
  simp [get_full_text_url, h1, ht, pyTruthyOpt]

theorem resolve_all_stages_none (env : ResolveEnv) (pmid : String) (hint : Option PyDict)
    (h1 : try_pmc env.pmcSearch env.pmcHead pmid = none)
    (ht : hintTruthy hint = true)
    (h2 : try_preprints env.prepGet pmid (hintGet hint "title") = none)
    (h3 : try_arxiv env.arxGet (hintGet hint "title") = none)
    (h4 : try_researchgate env.rgHead (hintGet hint "title") (hintGet hint "authors") = none) :
    get_full_text_url env pmid hint = mkResolution none none none := by
  simp [get_full_text_url, h1, ht, h2, h3, h4, pyTruthyOpt]

theorem resolve_cases (env : ResolveEnv) (pmid : String) (hint : Option PyDict) :
    (∃ u s a, u ≠ "" ∧
      get_full_text_url env pmid hint = mkResolution (some u) (some s) (some a)) ∨
    get_full_text_url env pmid hint = mkResolution none none none := by
  cases hp : try_pmc env.pmcSearch env.pmcHead pmid with
  | some u =>
    exact Or.inl ⟨u, _, _, try_pmc_some_ne hp, resolve_pmc_some env pmid hint u hp⟩
  | none =>
    cases hht : hintTruthy hint with
    | false => exact Or.inr (resolve_nohint env pmid hint hht hp)
    | true =>
      cases hprep : try_preprints env.prepGet pmid (hintGet hint "title") with
      | some v =>
        exact Or.inl ⟨v, _, _, try_preprints_some_ne hprep,
          resolve_prep_some env pmid hint v hp hht hprep⟩
      | none =>
        cases harx : try_arxiv env.arxGet (hintGet hint "title") with
        | some w =>
          exact Or.inl ⟨w, _, _, try_arxiv_some_ne harx,
            resolve_arxiv_some env pmid hint w hp hht hprep harx⟩
        | none =>
          cases hrg : try_researchgate env.rgHead (hintGet hint "title")
              (hintGet hint "authors") with
          | some x =>
            exact Or.inl ⟨x, _, _, try_researchgate_some_ne hrg,
              resolve_rg_some env pmid hint x hp hht hprep harx hrg⟩
          | none =>
            exact Or.inr (resolve_all_stages_none env pmid hint hp hht hprep harx hrg)

/- ===================== claim theorems ===================== -/

/-- C1: for every oracle environment, identifier and article hint — including
a malformed hint (non-string title) and an absent hint — `get_full_text_url`
is total and returns the resolution dict with exactly the keys `url`,
`source`, `access_type`; exceptions raised by the external calls are absorbed
inside the stages, and when every call raises the waterfall still completes,
degrading to the all-absent result. -/
theorem resolve_never_raises (env : ResolveEnv) (pmid : String) (hint : Option PyDict) :
    (get_full_text_url env pmid hint).map Prod.fst = ["url", "source", "access_type"]
    ∧ (env.AllFail → get_full_text_url env pmid hint = mkResolution none none none) := by
  constructor
  · rcases resolve_cases env pmid hint with ⟨u, s, a, _, hres⟩ | hres <;> rw [hres] <;> rfl
  · rintro ⟨hps, _, hpg, hag, hrh⟩
    have h1 := @try_pmc_none_of_error env.pmcSearch env.pmcHead pmid hps
    cases hht : hintTruthy hint with
    | false => exact resolve_nohint env pmid hint hht h1
    | true =>
      exact resolve_all_stages_none env pmid hint h1 hht
        (try_preprints_none_of_error hpg) (try_arxiv_none_of_error hag)
        (try_researchgate_none_of_error hrh)

theorem resolve_never_raises_witness :
    (get_full_text_url envErrR "1" (some hintMalformed)).map Prod.fst =
      ["url", "source", "access_type"]
    ∧ get_full_text_url envErrR "1" (some hintMalformed) = mkResolution none none none := by
  have h := resolve_never_raises envErrR "1" (some hintMalformed)
  exact ⟨h.1, h.2 ⟨fun x => ⟨.netErr, rfl⟩, fun x => ⟨.netErr, rfl⟩, fun x => ⟨.netErr, rfl⟩,
    fun x => ⟨.netErr, rfl⟩, fun x => ⟨.netErr, rfl⟩⟩⟩

/-- C2: the waterfall consults PMC, bioRxiv/medRxiv, arXiv and ResearchGate in
that fixed order and terminates with the first stage that yields a URL; in
particular, whenever the repository (PMC) stage yields a URL the repository
result — source `PubMed Central` (the repository-open-access tag) with
access `open-access` — is returned for every behaviour of the preprint and
later oracles, which are therefore never consulted. -/
theorem resolve_order (env : ResolveEnv) (pmid : String) (hint : Option PyDict) :
    (∀ u, try_pmc env.pmcSearch env.pmcHead pmid = some u →
      get_full_text_url env pmid hint =
        mkResolution (some u) (some "PubMed Central") (some "open-access"))
    ∧ (∀ v, try_pmc env.pmcSearch env.pmcHead pmid = none → hintTruthy hint = true →
        try_preprints env.prepGet pmid (hintGet hint "title") = some v →
        get_full_text_url env pmid hint =
          mkResolution (some v) (some "bioRxiv/medRxiv") (some "open-access"))
    ∧ (∀ w, try_pmc env.pmcSearch env.pmcHead pmid = none → hintTruthy hint = true →
        try_preprints env.prepGet pmid (hintGet hint "title") = none →
        try_arxiv env.arxGet (hintGet hint "title") = some w →
        get_full_text_url env pmid hint =
          mkResolution (some w) (some "arXiv") (some "open-access"))
    ∧ (∀ x, try_pmc env.pmcSearch env.pmcHead pmid = none → hintTruthy hint = true →
        try_preprints env.prepGet pmid (hintGet hint "title") = none →
        try_arxiv env.arxGet (hintGet hint "title") = none →
        try_researchgate env.rgHead (hintGet hint "title") (hintGet hint "authors") = some x →
        get_full_text_url env pmid hint =
          mkResolution (some x) (some "ResearchGate") (some "possibly-paywalled")) :=
  ⟨fun u h => resolve_pmc_some env pmid hint u h,
   fun v h1 ht h2 => resolve_prep_some env pmid hint v h1 ht h2,
   fun w h1 ht h2 h3 => resolve_arxiv_some env pmid hint w h1 ht h2 h3,
   fun x h1 ht h2 h3 h4 => resolve_rg_some env pmid hint x h1 ht h2 h3 h4⟩

theorem resolve_order_witness :
    try_preprints envPmcOk.prepGet "1" (hintGet (some [("title", PyVal.s "T")]) "title") =
      some "https://biorxiv.org/content/x.pdf"
    ∧ get_full_text_url envPmcOk "1" (some [("title", PyVal.s "T")]) =
        mkResolution (some "https://www.ncbi.nlm.nih.gov/pmc/articles/PMC777/pdf/")
          (some "PubMed Central") (some "open-access") :=
  ⟨rfl, (resolve_order envPmcOk "1" (some [("title", PyVal.s "T")])).1 _ rfl⟩

/-- C3: when the keyword search returns identifiers and the bulk fetch
succeeds, `search` returns exactly the records that parsed successfully, in
order: a record whose parse raises is skipped and never aborts the rest of
the batch. -/
theorem search_skips_bad_records (env : SearchEnv) (query : String) (maxResults : Nat)
    (dateFrom dateTo : Option String) (sr : EsearchResult) (records : List RawRecord)
    (h1 : env.esearch (buildFullQuery query dateFrom dateTo) maxResults = .ok sr)
    (h2 : sr.idList ≠ [])
    (h3 : env.efetch (String.intercalate "," sr.idList) = .ok records) :
    search env query maxResults dateFrom dateTo =
      .ok (records.filterMap (fun r => (parseRecord env.elink r).toOption)) := by
  have hne : sr.idList.isEmpty = false := by
    cases hl : sr.idList with
    | nil => exact absurd hl h2
    | cons a t => rfl
  simp only [search, h1, hne, Bool.false_eq_true, if_false, h3]
  rw [parseAll_eq_filterMap]

theorem search_skips_bad_records_witness :
    search envBatch "q" 5 none none =
      .ok (List.filterMap (fun r => (parseRecord envBatch.elink r).toOption) [recBad, recGood])
    ∧ List.filterMap (fun r => (parseRecord envBatch.elink r).toOption) [recBad, recGood] =
        [buildArticle elErr recGood artEmpty "123"] :=
  ⟨search_skips_bad_records envBatch "q" 5 none none ⟨["1", "2"], 2⟩ [recBad, recGood]
      rfl (by decide) rfl,
   rfl⟩

/-- C7: when the keyword search returns zero identifiers, `search` returns the
empty sequence without raising, and this holds for every fetch and link
oracle — the bulk fetch step is never consulted. -/
theorem search_empty_on_no_ids (es : String → Nat → Except PyErr EsearchResult)
    (ef : String → Except PyErr (List RawRecord))
    (el : String → Except PyErr (List (List (List String))))
    (query : String) (maxResults : Nat) (dateFrom dateTo : Option String)
    (sr : EsearchResult)
    (h1 : es (buildFullQuery query dateFrom dateTo) maxResults = .ok sr)
    (h2 : sr.idList = []) :
    search ⟨es, ef, el⟩ query maxResults dateFrom dateTo = .ok [] := by
  simp [search, h1, h2]

theorem search_empty_on_no_ids_witness :
    search envEmptySearch "CRISPR" 5 none none = .ok [] :=
  search_empty_on_no_ids envEmptySearch.esearch envEmptySearch.efetch envEmptySearch.elink
    "CRISPR" 5 none none ⟨[], 0⟩ rfl rfl

/-- C8: every resolution result satisfies the field-coupling invariant: if the
`url` field holds a URL then `source` and `access_type` also hold values, and
if the `url` field is `None` then all three fields are `None`. -/
theorem resolution_field_coupling (env : ResolveEnv) (pmid : String) (hint : Option PyDict) :
    ((∃ u, (get_full_text_url env pmid hint).lookup "url" = some (some u)) →
      (∃ s, (get_full_text_url env pmid hint).lookup "source" = some (some s)) ∧
      (∃ a, (get_full_text_url env pmid hint).lookup "access_type" = some (some a)))
    ∧ ((get_full_text_url env pmid hint).lookup "url" = some none →
        (get_full_text_url env pmid hint).lookup "source" = some none ∧
        (get_full_text_url env pmid hint).lookup "access_type" = some none) := by
  rcases resolve_cases env pmid hint with ⟨u, s, a, _, hres⟩ | hres <;> rw [hres]
  · refine ⟨fun _ => ⟨⟨s, rfl⟩, ⟨a, rfl⟩⟩, fun hx => ?_⟩
    exact absurd hx (by simp [mkResolution, List.lookup])
  · refine ⟨fun hx => ?_, fun _ => ⟨rfl, rfl⟩⟩
    obtain ⟨u, hu⟩ := hx
    exact absurd hu (by simp [mkResolution, List.lookup])

theorem resolution_field_coupling_witness :
    (∃ s, (get_full_text_url envPmcOk "2" none).lookup "source" = some (some s)) ∧
    (get_full_text_url envErrR "2" none).lookup "source" = some none := by
  refine ⟨((resolution_field_coupling envPmcOk "2" none).1
    ⟨"https://www.ncbi.nlm.nih.gov/pmc/articles/PMC777/pdf/", rfl⟩).1, ?_⟩
  exact ((resolution_field_coupling envErrR "2" none).2 rfl).1

/-- C9 (amended): the hint-dependent stages are gated on Python truthiness of
the whole hint dict (`if article:`), not on a title being present — a truthy
hint with no title key supplies the empty-string default title to the stages,
and the author-network stage does not require authors; when the hint is
absent or empty and the repository lookup finds nothing, resolve returns the
all-absent result with source `none`. -/
theorem resolve_hint_gating (env : ResolveEnv) (pmid : String) (hint : Option PyDict) :
    (hintTruthy hint = false → try_pmc env.pmcSearch env.pmcHead pmid = none →
      get_full_text_url env pmid hint = mkResolution none none none)
    ∧ (∀ d, hint = some d → d ≠ [] → d.lookup "title" = none →
        hintTruthy hint = true ∧ hintGet hint "title" = PyVal.s "") := by
  constructor
  · exact fun ht h1 => resolve_nohint env pmid hint ht h1
  · rintro d rfl hne hlt
    refine ⟨?_, by simp [hintGet, hlt]⟩
    cases d with
    | nil => exact absurd rfl hne
    | cons x t => rfl

theorem resolve_hint_gating_witness :
    get_full_text_url envC9 "111" none = mkResolution none none none ∧
    hintGet (some hintAuthorsOnly) "title" = PyVal.s "" :=
  ⟨(resolve_hint_gating envC9 "111" none).1 rfl rfl,
   ((resolve_hint_gating envC9 "111" (some hintAuthorsOnly)).2 hintAuthorsOnly rfl
      (by decide) rfl).2⟩

/-- C9 counterexample: the claim as stated is false — with a hint dict that
supplies no title (only authors) and an empty repository index, the preprint
stage still runs (keyed on the default empty title) and can return a hit, so
resolve does not return the all-absent result the claim requires. -/
theorem resolve_hint_gating_counterexample :
    hintAuthorsOnly.lookup "title" = none
    ∧ get_full_text_url envC9 "111" (some hintAuthorsOnly) =
        mkResolution (some "https://biorxiv.org/content/x.pdf")
          (some "bioRxiv/medRxiv") (some "open-access")
    ∧ mkResolution (some "https://biorxiv.org/content/x.pdf")
        (some "bioRxiv/medRxiv") (some "open-access") ≠ mkResolution none none none :=
  ⟨rfl, rfl, by decide⟩

/-- C4 (amended): every record parsed by the search loop produces an article
dict with exactly the twelve keys, never missing one; its `pmid` equals the
source record's PMID string (hence non-empty whenever the source value is);
and a field whose source data is absent holds the sentinel `"N/A"` —
journal, title, year, doi, doi link, pmc id, pdf link, and citation count on
a failed link call. -/
theorem record_shape_and_sentinels (el : String → Except PyErr (List (List (List String))))
    (rec : RawRecord) (art : PyDict) (h : parseRecord el rec = .ok art) :
    art.map Prod.fst = ["pmid", "pmc_id", "title", "abstract", "authors", "year",
      "journal", "doi", "doi_link", "pdf_link", "url", "citation_count"]
    ∧ (∃ m p, rec.medlineCitation = some m ∧ m.pmid = some p ∧
        art.lookup "pmid" = some (.s p))
    ∧ (∀ m a, rec.medlineCitation = some m → m.article = some a →
        ((a.journal = none → art.lookup "journal" = some (.s "N/A"))
        ∧ (a.articleTitle = none → art.lookup "title" = some (.s "N/A"))
        ∧ (a.articleDate = none → a.pubDate = none →
            art.lookup "year" = some (.s "N/A"))
        ∧ ((∀ x ∈ a.eLocationId.getD [], x.eidType ≠ some "doi") →
            (∀ x ∈ rec.pubmedData.getD [], x.idType ≠ some "doi") →
            art.lookup "doi" = some (.s "N/A") ∧
            art.lookup "doi_link" = some (.s "N/A"))
        ∧ ((∀ x ∈ rec.pubmedData.getD [], x.idType ≠ some "pmc") →
            art.lookup "pmc_id" = some (.s "N/A") ∧
            art.lookup "pdf_link" = some (.s "N/A"))))
    ∧ (∀ m p, rec.medlineCitation = some m → m.pmid = some p →
        (∀ x, ∃ e, el x = .error e) →
        art.lookup "citation_count" = some (.s "N/A")) := by
  obtain ⟨m0, a0, p0, hm0, ha0, hp0, hart⟩ := parseRecord_ok h
  subst hart
  refine ⟨buildArticle_keys el rec a0 p0,
    ⟨m0, p0, hm0, hp0, buildArticle_lookup_pmid el rec a0 p0⟩, ?_, ?_⟩
  · intro m a hm ha
    rw [hm0] at hm
    obtain rfl := Option.some.inj hm
    rw [ha0] at ha
    obtain rfl := Option.some.inj ha
    refine ⟨?_, ?_, ?_, ?_, ?_⟩
    · intro hj
      rw [buildArticle_lookup_journal]
      simp [extractJournal, hj]
    · intro hti
      rw [buildArticle_lookup_title]
      simp [hti]
    · intro hdd hpd
      rw [buildArticle_lookup_year]
      simp [extractYear, hdd, hpd]
    · intro hdoi hids
      have hda : extractDoiArticle a0 = ("N/A", "N/A") := by
        cases hel : a0.eLocationId with
        | none => simp [extractDoiArticle, hel]
        | some l =>
          rw [hel] at hdoi
          simp only [Option.getD_some] at hdoi
          simp [extractDoiArticle, hel, extractDoiEloc_none l hdoi]
      have hri : (extractRecordIds rec (extractDoiArticle a0).1
            (extractDoiArticle a0).2).1 = "N/A"
          ∧ (extractRecordIds rec (extractDoiArticle a0).1
            (extractDoiArticle a0).2).2.1 = "N/A" := by
        rw [hda]
        cases hpd2 : rec.pubmedData with
        | none => simp [extractRecordIds, hpd2]
        | some ids =>
          rw [hpd2] at hids
          simp only [Option.getD_some] at hids
          simp only [extractRecordIds, hpd2]
          exact extractIdsLoop_no_doi ids "N/A" "N/A" "N/A" hids
      exact ⟨by rw [buildArticle_lookup_doi, hri.1],
        by rw [buildArticle_lookup_doi_link, hri.2]⟩
    · intro hpmc
      have hpm : (extractRecordIds rec (extractDoiArticle a0).1
            (extractDoiArticle a0).2).2.2 = "N/A" := by
        cases hpd2 : rec.pubmedData with
        | none => simp [extractRecordIds, hpd2]
        | some ids =>
          rw [hpd2] at hpmc
          simp only [Option.getD_some] at hpmc
          simp only [extractRecordIds, hpd2]
          exact extractIdsLoop_no_pmc ids _ _ "N/A" hpmc
      constructor
      · rw [buildArticle_lookup_pmc_id]
        simp [hpm]
      · rw [buildArticle_lookup_pdf_link, hpm]
        simp [get_pmc_pdf_link]
  · intro m p hm hp hel
    rw [hm0] at hm
    obtain rfl := Option.some.inj hm
    rw [hp0] at hp
    obtain rfl := Option.some.inj hp
    obtain ⟨e, he⟩ := hel p0
    rw [buildArticle_lookup_citation]
    simp [get_citation_count, he]

theorem record_shape_and_sentinels_witness :
    (buildArticle elErr recGood artEmpty "123").map Prod.fst =
      ["pmid", "pmc_id", "title", "abstract", "authors", "year",
       "journal", "doi", "doi_link", "pdf_link", "url", "citation_count"]
    ∧ (buildArticle elErr recGood artEmpty "123").lookup "doi" = some (PyVal.s "N/A")
    ∧ (buildArticle elErr recGood artEmpty "123").lookup "citation_count" =
        some (PyVal.s "N/A") := by
  have h := record_shape_and_sentinels elErr recGood _ rfl
  refine ⟨h.1, ?_, ?_⟩
  · exact ((h.2.2.1 _ _ rfl rfl).2.2.2.1 (by intro x hx; simp [artEmpty] at hx)
      (by intro x hx; simp [recGood] at hx)).1
  · exact h.2.2.2 _ _ rfl rfl (fun x => ⟨.netErr, rfl⟩)

/-- C4 counterexample: the claim as stated is false — a fetched record whose
PMID value is the empty string and which carries no DOI parses into a record
whose identifier is empty (not non-empty) and whose absent DOI holds the
sentinel `"N/A"`, not `"unknown"`. -/
theorem record_shape_and_sentinels_counterexample :
    parseRecord elErr recEmptyPmid = .ok (buildArticle elErr recEmptyPmid artEmpty "")
    ∧ (buildArticle elErr recEmptyPmid artEmpty "").lookup "pmid" = some (PyVal.s "")
    ∧ (buildArticle elErr recEmptyPmid artEmpty "").lookup "doi" = some (PyVal.s "N/A")
    ∧ (buildArticle elErr recEmptyPmid artEmpty "").lookup "doi" ≠
        some (PyVal.s "unknown") :=
  ⟨rfl, rfl, rfl, by decide⟩

/-- C5: DOI extraction order — the first `doi`-typed entry of the
article-level `ELocationID` list wins and short-circuits, and the
record-level `ArticleIdList` is consulted only when the article level left
the DOI unresolved (in which case its first `doi`-typed entry wins). -/
theorem doi_article_level_wins (el : String → Except PyErr (List (List (List String))))
    (rec : RawRecord) (art : PyDict) (h : parseRecord el rec = .ok art)
    (m : MedlineCit) (a : RawArticle)
    (hm : rec.medlineCitation = some m) (ha : m.article = some a) :
    (∀ pre e post, a.eLocationId = some (pre ++ e :: post) →
      (∀ x ∈ pre, x.eidType ≠ some "doi") → e.eidType = some "doi" →
      e.value ≠ "N/A" →
      art.lookup "doi" = some (.s e.value) ∧
      art.lookup "doi_link" = some (.s ("https://doi.org/" ++ e.value)))
    ∧ ((∀ x ∈ a.eLocationId.getD [], x.eidType ≠ some "doi") →
       ∀ pre i post, rec.pubmedData = some (pre ++ i :: post) →
        (∀ x ∈ pre, x.idType ≠ some "doi") → i.idType = some "doi" →
        i.value ≠ "N/A" →
        art.lookup "doi" = some (.s i.value) ∧
        art.lookup "doi_link" = some (.s ("https://doi.org/" ++ i.value))) := by
  obtain ⟨m0, a0, p0, hm0, ha0, hp0, hart⟩ := parseRecord_ok h
  subst hart
  rw [hm0] at hm
  obtain rfl := Option.some.inj hm
  rw [ha0] at ha
  obtain rfl := Option.some.inj ha
  constructor
  · intro pre e post hel hpre he hv
    have hda : extractDoiArticle a0 = (e.value, "https://doi.org/" ++ e.value) := by
      simp [extractDoiArticle, hel, extractDoiEloc_first pre e post hpre he]
    have hri : (extractRecordIds rec (extractDoiArticle a0).1
          (extractDoiArticle a0).2).1 = e.value
        ∧ (extractRecordIds rec (extractDoiArticle a0).1
          (extractDoiArticle a0).2).2.1 = "https://doi.org/" ++ e.value := by
      rw [hda]
      cases hpd2 : rec.pubmedData with
      | none => simp [extractRecordIds, hpd2]
      | some ids =>
        simp only [extractRecordIds, hpd2]
        exact extractIdsLoop_stable ids e.value _ "N/A" hv
    exact ⟨by rw [buildArticle_lookup_doi, hri.1],
      by rw [buildArticle_lookup_doi_link, hri.2]⟩
  · intro hdoi pre i post hpd2 hpre hi hv
    have hda : extractDoiArticle a0 = ("N/A", "N/A") := by
      cases hel : a0.eLocationId with
      | none => simp [extractDoiArticle, hel]
      | some l =>
        rw [hel] at hdoi
        simp only [Option.getD_some] at hdoi
        simp [extractDoiArticle, hel, extractDoiEloc_none l hdoi]
    have hri : (extractRecordIds rec (extractDoiArticle a0).1
          (extractDoiArticle a0).2).1 = i.value
        ∧ (extractRecordIds rec (extractDoiArticle a0).1
          (extractDoiArticle a0).2).2.1 = "https://doi.org/" ++ i.value := by
      rw [hda]
      simp only [extractRecordIds, hpd2]
      exact extractIdsLoop_first_doi pre i post "N/A" "N/A" hpre hi hv
    exact ⟨by rw [buildArticle_lookup_doi, hri.1],
      by rw [buildArticle_lookup_doi_link, hri.2]⟩

theorem doi_article_level_wins_witness :
    (buildArticle elErr recDoiBoth artDoiBoth "123").lookup "doi" =
      some (PyVal.s "10.1000/articledoi")
    ∧ (buildArticle elErr recDoiBoth artDoiBoth "123").lookup "doi_link" =
        some (PyVal.s "https://doi.org/10.1000/articledoi") := by
  have h := (doi_article_level_wins elErr recDoiBoth _ rfl _ _ rfl rfl).1
    [⟨some "pii", "S123"⟩] ⟨some "doi", "10.1000/articledoi"⟩ [] rfl
    (by intro x hx; simp at hx; subst hx; decide) rfl (by decide)
  exact h

/-- C6 (amended): the publication year comes from the explicit
publication-date fields; when absent, the free-text medline-date is scanned
and the first window of four digit characters becomes the year (so a record
whose only date field is "2023 Jan-Feb" yields "2023"); when that also
fails, the year is the sentinel `"N/A"`. -/
theorem year_extraction (el : String → Except PyErr (List (List (List String))))
    (rec : RawRecord) (art : PyDict) (h : parseRecord el rec = .ok art)
    (m : MedlineCit) (a : RawArticle)
    (hm : rec.medlineCitation = some m) (ha : m.article = some a)
    (hd : a.articleDate = none ∨ a.articleDate = some []) :
    (∀ pd y, a.pubDate = some pd → pd.year = some y →
      art.lookup "year" = some (.s y))
    ∧ (∀ pd md, a.pubDate = some pd → pd.year = none → pd.medlineDate = some md →
        ((∃ ys, find4 md.data = some ys
          ∧ art.lookup "year" = some (.s (String.mk ys))
          ∧ ys.length = 4 ∧ (∀ c ∈ ys, c.isDigit = true)
          ∧ ∃ pre post, md.data = pre ++ ys ++ post
            ∧ ∀ pre2 ys2 post2, md.data = pre2 ++ ys2 ++ post2 → ys2.length = 4 →
                (∀ c ∈ ys2, c.isDigit = true) → pre.length ≤ pre2.length)
        ∨ (find4 md.data = none ∧ art.lookup "year" = some (.s "N/A"))))
    ∧ (a.pubDate = none → art.lookup "year" = some (.s "N/A")) := by
  obtain ⟨m0, a0, p0, hm0, ha0, hp0, hart⟩ := parseRecord_ok h
  subst hart
  rw [hm0] at hm
  obtain rfl := Option.some.inj hm
  rw [ha0] at ha
  obtain rfl := Option.some.inj ha
  refine ⟨?_, ?_, ?_⟩
  · intro pd y hpd hy
    rw [buildArticle_lookup_year]
    have hev : extractYear a0 = y := by
      rcases hd with hdd | hdd <;> simp [extractYear, hdd, hpd, hy]
    rw [hev]
  · intro pd md hpd hyr hmd
    cases hf : find4 md.data with
    | some ys =>
      left
      obtain ⟨hlen, hdig, pre, post, heq, hleft⟩ := find4_some md.data ys hf
      have hev : extractYear a0 = String.mk ys := by
        rcases hd with hdd | hdd <;> simp [extractYear, hdd, hpd, hyr, hmd, hf]
      exact ⟨ys, rfl, by rw [buildArticle_lookup_year, hev], hlen, hdig,
        pre, post, heq, hleft⟩
    | none =>
      right
      have hev : extractYear a0 = "N/A" := by
        rcases hd with hdd | hdd <;> simp [extractYear, hdd, hpd, hyr, hmd, hf]
      exact ⟨rfl, by rw [buildArticle_lookup_year, hev]⟩
  · intro hpd
    rw [buildArticle_lookup_year]
    have hev : extractYear a0 = "N/A" := by
      rcases hd with hdd | hdd <;> simp [extractYear, hdd, hpd]
    rw [hev]

theorem year_extraction_witness :
    (buildArticle elErr recMedline artMedline "123").lookup "year" =
      some (PyVal.s "2023") := by
  have h := (year_extraction elErr recMedline _ rfl _ _ rfl rfl (Or.inl rfl)).2.1
    ⟨none, some "2023 Jan-Feb"⟩ "2023 Jan-Feb" rfl rfl rfl
  rcases h with ⟨ys, hf, hlook, _⟩ | ⟨hf, _⟩
  · have hc : find4 ("2023 Jan-Feb".data) = some ['2', '0', '2', '3'] := by decide
    rw [hc] at hf
    obtain rfl := Option.some.inj hf
    exact hlook.trans (by decide)
  · exact absurd hf (by decide)

/-- C6 counterexample: the claim as stated is false — a record whose only date
field is the medline-date "n.d." (no 4-digit number) yields the sentinel
`"N/A"`, not the `"unknown"` the claim names. -/
theorem year_extraction_counterexample :
    parseRecord elErr recND = .ok (buildArticle elErr recND artND "123")
    ∧ (buildArticle elErr recND artND "123").lookup "year" = some (PyVal.s "N/A")
    ∧ (buildArticle elErr recND artND "123").lookup "year" ≠ some (PyVal.s "unknown") :=
  ⟨rfl, rfl, by decide⟩

/-- C10: the stored abstract is length-bounded by the truncation bound (500)
plus the ellipsis marker ("...", length 3): a longer abstract is cut to the
bound with the marker appended, a shorter one is stored unchanged. -/
theorem abstract_truncation_bound (el : String → Except PyErr (List (List (List String))))
    (rec : RawRecord) (art : PyDict) (h : parseRecord el rec = .ok art)
    (m : MedlineCit) (a : RawArticle)
    (hm : rec.medlineCitation = some m) (ha : m.article = some a) :
    ∃ t, art.lookup "abstract" = some (.s t) ∧ t.length ≤ 500 + 3
      ∧ ((extractAbstract a).length ≤ 500 → t = extractAbstract a)
      ∧ (500 < (extractAbstract a).length →
          t = String.mk ((extractAbstract a).data.take 500) ++ "...") := by
  obtain ⟨m0, a0, p0, hm0, ha0, hp0, hart⟩ := parseRecord_ok h
  subst hart
  rw [hm0] at hm
  obtain rfl := Option.some.inj hm
  rw [ha0] at ha
  obtain rfl := Option.some.inj ha
  refine ⟨truncateAbstract (extractAbstract a0),
    buildArticle_lookup_abstract el rec a0 p0, ?_, ?_, ?_⟩
  · unfold truncateAbstract
    split
    next hgt =>
      rw [str_length_append]
      have hle : (String.mk ((extractAbstract a0).data.take 500)).length ≤ 500 := by
        show ((extractAbstract a0).data.take 500).length ≤ 500
        rw [List.length_take]
        exact min_le_left _ _
      have h3 : ("..." : String).length = 3 := rfl
      omega
    next hgt => omega
  · intro hle
    unfold truncateAbstract
    rw [if_neg (by omega)]
  · intro hgt
    unfold truncateAbstract
    rw [if_pos hgt]

set_option maxRecDepth 4000 in
theorem abstract_truncation_bound_witness :
    (buildArticle elErr recLong artLong "123").lookup "abstract" =
      some (PyVal.s (String.mk (List.replicate 500 'a') ++ "...")) := by
  obtain ⟨t, hl, hb, hshort, hlong⟩ :=
    abstract_truncation_bound elErr recLong _ rfl _ _ rfl rfl
  have he : extractAbstract artLong = String.mk (List.replicate 501 'a') := rfl
  have hgt : 500 < (extractAbstract artLong).length := by
    rw [he]
    show 500 < (List.replicate 501 'a').length
    rw [List.length_replicate]
    omega
  have ht := hlong hgt
  have htake : ((String.mk (List.replicate 501 'a')).data.take 500) =
      List.replicate 500 'a' := by
    show (List.replicate 501 'a').take 500 = List.replicate 500 'a'
    rw [List.take_replicate]
    congr 1
  rw [hl, ht, he, htake]
